import Mathlib

/-
  Verification development for the Amiya-Bot core sources:

  - amiyabot/adapters/kook/__init__.py    : gateway protocol state machine
  - amiyabot/handler/__init__.py          : handler registry and plugin merge
  - amiyabot/builtin/message/structure.py : the Verify structure

  The Python code is shallowly embedded as pure Lean functions.  Python
  dictionaries are modelled as association lists in insertion order; the
  in-place list mutation performed by `+=` on aliased list objects is made
  explicit by returning the updated owner of the list.
-/

namespace Amiyabot

/-! ## KOOK adapter: amiyabot/adapters/kook/__init__.py -/

/-- Wire frame `WSPayload(s, d, sn, extra)`.  The payload dictionary `d` is
modelled by the two fields the adapter reads from it: `d["code"]` (handshake
result code) and `d["session_id"]`.  A frame built with `d=None` (such as the
resume frame `WSPayload(4, sn=last_sn)`) carries the defaults. -/
structure WSPayload where
  s : Int
  d_code : Int := 0
  d_session_id : String := ""
  sn : Option Int := none
deriving Repr, DecidableEq

/-- The mutable fields of `KOOKBotInstance` that the connection loop touches:
`ws_url`, `last_sn`, `pong`, `session`, plus `keep_run` (from the base
adapter) and `connected` (whether `self.connection` is not `None`).
`__still_alive` is `keep_run and connection`. -/
structure KookState where
  ws_url : String
  last_sn : Int
  pong : Int
  session : String
  keep_run : Bool
  connected : Bool
deriving Repr, DecidableEq

/-- Result of processing one received frame in the body of the receive loop
of `KOOKBotInstance.__connect`: the new instance state, the frames written to
the websocket during the step, whether an event-handler task or the heartbeat
task was spawned, whether `TimeoutError` was raised (handshake reject), and
whether `close_connection` was called (reconnect-required frame). -/
structure StepOut where
  st : KookState
  sent : List WSPayload
  spawnedEvent : Bool
  spawnedHeartbeat : Bool
  raisedTimeout : Bool
  closedConn : Bool
deriving Repr, DecidableEq

/-- One iteration of the receive loop of `KOOKBotInstance.__connect`, given
the decoded frame `p`.  Mirrors the source line by line:

* `if payload.sn is not None: self.last_sn = payload.sn`
* `s == 0`: spawn the event handler task
* `s == 1, d.code != 0`: clear `ws_url` and `last_sn`, raise `TimeoutError`
* `s == 1, d.code == 0`: if `last_sn` is nonzero send the resume frame
  `WSPayload(4, sn=last_sn)`, then store `session` and spawn the heartbeat
* `s == 3`: set `pong = 1`
* `s == 5`: clear `ws_url` and `last_sn` and call `close_connection`
  (which sets `connection = None`, so the loop guard fails afterwards)
* `s == 6`: log only.

The source uses a sequence of independent `if payload.s == k` tests; since
`s` is a single value at most one branch fires, so a dispatch on `s` is
equivalent (the reject branch raises before any later test runs). -/
def processFrame (st0 : KookState) (p : WSPayload) : StepOut :=
  let st :=
    match p.sn with
    | some v => { st0 with last_sn := v }
    | none => st0
  if p.s = 0 then
    { st := st, sent := [], spawnedEvent := true, spawnedHeartbeat := false,
      raisedTimeout := false, closedConn := false }
  else if p.s = 1 then
    if p.d_code ≠ 0 then
      { st := { st with ws_url := "", last_sn := 0 }, sent := [],
        spawnedEvent := false, spawnedHeartbeat := false,
        raisedTimeout := true, closedConn := false }
    else
      { st := { st with session := p.d_session_id },
        sent := if st.last_sn ≠ 0 then [{ s := 4, sn := some st.last_sn }] else [],
        spawnedEvent := false, spawnedHeartbeat := true,
        raisedTimeout := false, closedConn := false }
  else if p.s = 3 then
    { st := { st with pong := 1 }, sent := [], spawnedEvent := false,
      spawnedHeartbeat := false, raisedTimeout := false, closedConn := false }
  else if p.s = 5 then
    { st := { st with ws_url := "", last_sn := 0, connected := false },
      sent := [], spawnedEvent := false, spawnedHeartbeat := false,
      raisedTimeout := false, closedConn := true }
  else
    { st := st, sent := [], spawnedEvent := false, spawnedHeartbeat := false,
      raisedTimeout := false, closedConn := false }

/-- `if not self.ws_url` at the top of `__connect`: a fresh gateway endpoint
is requested from the control plane exactly when the cached one is empty. -/
def needsGatewayRequest (st : KookState) : Bool :=
  st.ws_url = ""

/-- Run the receive loop of `__connect` over a list of decoded frames.  The
guard is `__still_alive` (`keep_run and connection`); a raised
`TimeoutError` leaves the loop at once, and after `close_connection`
(`connected = false`) the guard fails on the next iteration. -/
def runFrames (st : KookState) : List WSPayload → KookState
  | [] => st
  | p :: ps =>
    if st.keep_run = true ∧ st.connected = true then
      let out := processFrame st p
      if out.raisedTimeout then out.st else runFrames out.st ps
    else st

/-- The trace of `last_sn` values observed after each processed frame. -/
def lastSnTrace (st : KookState) : List WSPayload → List Int
  | [] => []
  | p :: ps =>
    if st.keep_run = true ∧ st.connected = true then
      let out := processFrame st p
      out.st.last_sn :: (if out.raisedTimeout then [] else lastSnTrace out.st ps)
    else []

/-- The non-null `sn` fields of a frame list, in order. -/
def snsOf (frames : List WSPayload) : List Int :=
  frames.filterMap WSPayload.sn

/-- The body of `KOOKBotInstance.wait_heartbeat`, driven by the environment
function `pongTick`, where `pongTick i` tells whether `self.pong` reads as 1
after `i` one-second sleeps (the flag is set by the receive loop on an `s=3`
frame).  Arguments after `pongTick`: remaining fuel, `sec`, `__still_alive`,
and the number of `close_connection` calls so far.  Returns the number of
close calls and the final value of `self.pong` (the trailing
`self.pong = 0` of the source).  The loop body runs at most 31 times, so any
fuel of at least 31 computes the real behaviour. -/
def watchdogFrom (pongTick : Nat → Bool) : Nat → Nat → Bool → Nat → Nat × Nat
  | 0, _, _, closes => (closes, 0)
  | fuel + 1, sec, alive, closes =>
    if pongTick sec = false ∧ alive = true then
      let sec' := sec + 1
      if 30 ≤ sec' then
        watchdogFrom pongTick fuel sec' false (closes + 1)
      else
        watchdogFrom pongTick fuel sec' alive closes
    else
      (closes, 0)

/-- A full run of `wait_heartbeat` from `sec = 0` with the connection alive. -/
def watchdogRun (pongTick : Nat → Bool) : Nat × Nat :=
  watchdogFrom pongTick 40 0 true 0

/-! ## Handler registry: amiyabot/handler/__init__.py

Python dictionaries are modelled as association lists `AList K V` kept in
insertion order with unique keys (a Python `dict` cannot hold a key twice).
`alookup` is `d[k]` / `k in d`, `dictSet` is `d[k] = v` (replace in place or
append), `dictUpdate` is `d.update(m)`, and `eraseKey` is `del d[k]`. -/

/-- A Python dictionary as an association list in insertion order. -/
abbrev AList (K V : Type) := List (K × V)

/-- Dictionary lookup `d[k]` (first occurrence of the key). -/
def alookup {K V : Type} [DecidableEq K] : AList K V → K → Option V
  | [], _ => none
  | (k', v) :: rest, k => if k' = k then some v else alookup rest k

/-- Dictionary assignment `d[k] = v`: replaces the value of an existing key
in place, otherwise appends the new pair. -/
def dictSet {K V : Type} [DecidableEq K] : AList K V → K → V → AList K V
  | [], k, v => [(k, v)]
  | (k', v') :: rest, k, v =>
    if k' = k then (k, v) :: rest else (k', v') :: dictSet rest k v

/-- `d.update(m)`: assign every pair of `m` into `d`, in order. -/
def dictUpdate {K V : Type} [DecidableEq K] (d m : AList K V) : AList K V :=
  m.foldl (fun acc kv => dictSet acc kv.1 kv.2) d

/-- `dict(ChainMap(*maps))`.  `ChainMap.__iter__` iterates the dictionary
obtained by updating an empty dictionary with the maps in reversed order, and
lookups take the value from the earliest map containing the key; updating in
reversed order produces exactly that (later updates, from earlier maps,
overwrite). -/
def dictOfChainMap {K V : Type} [DecidableEq K] (maps : List (AList K V)) : AList K V :=
  maps.reverse.foldl dictUpdate []

/-- Lookup semantics of `ChainMap(*maps)`: the value from the earliest map
containing the key. -/
def chainFirst {K V : Type} [DecidableEq K] : List (AList K V) → K → Option V
  | [], _ => none
  | m :: rest, k =>
    match alookup m k with
    | some v => some v
    | none => chainFirst rest k

/-- `BotHandlerFactory.__get_with_plugins` for a list-shaped collection:
`self_attr + list(chain(*plugin_attr))`. -/
def getWithPluginsList {E : Type} (self_attr : List E) (plugin_attrs : List (List E)) : List E :=
  self_attr ++ plugin_attrs.flatten

/-- `BotHandlerFactory.__get_with_plugins` for a dict-shaped collection whose
values are lists, returning the dictionary handed to the caller:

* `value = {**self_attr}` — a shallow copy: the copied entries alias the
  very list objects stored in `self_attr`;
* `plugin_value = dict(ChainMap(*plugin_attr))`;
* for each key of `plugin_value`: a key absent from `value` is appended with
  the plugin list, a key already present gets `value[k] += plugin_value[k]`,
  which extends the shared list object in place.

Each key of `plugin_value` is visited once, so for those keys membership in
`value` coincides with membership in `self_attr`. -/
def getWithPluginsDict {K E : Type} [DecidableEq K]
    (self_attr : AList K (List E)) (plugin_attrs : List (AList K (List E))) :
    AList K (List E) :=
  let pv := dictOfChainMap plugin_attrs
  (self_attr.map fun kv =>
    match alookup pv kv.1 with
    | some w => (kv.1, kv.2 ++ w)
    | none => kv)
  ++ pv.filter fun kv => (alookup self_attr kv.1).isNone

/-- The content of the private dictionary `self_attr` after one read of the
merged view: because `value[k] += plugin_value[k]` extends list objects that
`value` shares with `self_attr`, every host entry whose key also occurs in a
plugin has grown by the plugin list. -/
def selfAttrAfterRead {K E : Type} [DecidableEq K]
    (self_attr : AList K (List E)) (plugin_attrs : List (AList K (List E))) :
    AList K (List E) :=
  let pv := dictOfChainMap plugin_attrs
  self_attr.map fun kv =>
    match alookup pv kv.1 with
    | some w => (kv.1, kv.2 ++ w)
    | none => kv

/-- Follows the wording of the spec, for comparison with the implementation:
the merged value list of key `k` is the host entries followed by every
plugin contribution for `k` concatenated in plugin-installation order. -/
def specMergedValue {K E : Type} [DecidableEq K]
    (self_attr : AList K (List E)) (plugin_attrs : List (AList K (List E)))
    (k : K) : Option (List E) :=
  match alookup self_attr k, plugin_attrs.filterMap fun m => alookup m k with
  | some v, parts => some (v ++ parts.flatten)
  | none, [] => none
  | none, parts => some parts.flatten

/-- `del d[k]`. -/
def eraseKey {K V : Type} [DecidableEq K] : AList K V → K → AList K V
  | [], _ => []
  | (k', v) :: rest, k => if k' = k then rest else (k', v) :: eraseKey rest k

/-- A `GroupConfig` value (defined in `messageHandlerDefine`, outside these
sources); the registry stores and moves it around opaquely, so only an
identity is modelled. -/
structure GroupConfig where
  group_id : String
deriving Repr, DecidableEq

/-- A `PluginInstance`: a `BotHandlerFactory` of its own (its private handler
collections, here with handler functions represented by numeric identifiers)
plus `plugin_id` and the `install` / `uninstall` hooks, which are no-ops in
the source and are modelled by the two flags.  A plugin with no sub-plugins
reads each merged-view property as exactly its private collection, so the
private fields below are also the plugin contribution to the host views. -/
structure Plugin where
  plugin_id : String
  p_prefix_keywords : List String
  p_event_handlers : AList String (List Nat)
  p_message_handlers : List Nat
  p_exception_handlers : AList String (List Nat)
  p_after_reply_handlers : List Nat
  p_before_reply_handlers : List Nat
  p_middleware : List Nat
  p_group_config : AList String GroupConfig
  installed : Bool := false
  uninstalled : Bool := false
deriving Repr, DecidableEq

/-- The private collections of a `BotHandlerFactory` host plus its installed
plugins dictionary (`self.plugins`), in installation order. -/
structure HostState where
  priv_prefix_keywords : List String
  priv_event_handlers : AList String (List Nat)
  priv_message_handlers : List Nat
  priv_exception_handlers : AList String (List Nat)
  priv_after_reply_handlers : List Nat
  priv_before_reply_handlers : List Nat
  priv_middleware : List Nat
  priv_group_config : AList String GroupConfig
  plugins : AList String Plugin
deriving Repr, DecidableEq

/-- Merged view `prefix_keywords` (list shaped). -/
def HostState.prefix_keywords (st : HostState) : List String :=
  getWithPluginsList st.priv_prefix_keywords (st.plugins.map fun kv => kv.2.p_prefix_keywords)

/-- Merged view `message_handlers` (list shaped). -/
def HostState.message_handlers (st : HostState) : List Nat :=
  getWithPluginsList st.priv_message_handlers (st.plugins.map fun kv => kv.2.p_message_handlers)

/-- Merged view `after_reply_handlers` (list shaped). -/
def HostState.after_reply_handlers (st : HostState) : List Nat :=
  getWithPluginsList st.priv_after_reply_handlers (st.plugins.map fun kv => kv.2.p_after_reply_handlers)

/-- Merged view `before_reply_handlers` (list shaped). -/
def HostState.before_reply_handlers (st : HostState) : List Nat :=
  getWithPluginsList st.priv_before_reply_handlers (st.plugins.map fun kv => kv.2.p_before_reply_handlers)

/-- Merged view `message_handler_middleware` (list shaped). -/
def HostState.message_handler_middleware (st : HostState) : List Nat :=
  getWithPluginsList st.priv_middleware (st.plugins.map fun kv => kv.2.p_middleware)

/-- Merged view `event_handlers` (dict shaped). -/
def HostState.event_handlers (st : HostState) : AList String (List Nat) :=
  getWithPluginsDict st.priv_event_handlers (st.plugins.map fun kv => kv.2.p_event_handlers)

/-- Merged view `exception_handlers` (dict shaped). -/
def HostState.exception_handlers (st : HostState) : AList String (List Nat) :=
  getWithPluginsDict st.priv_exception_handlers (st.plugins.map fun kv => kv.2.p_exception_handlers)

/-- `BotInstance.install_plugin` for an already constructed `PluginInstance`:
the assertion `plugin_id not in self.plugins` fails inside
`log.sync_catch`, so on a duplicate identifier the method logs and returns
`None` with the host untouched; otherwise `set_prefix_keywords` appends the
merged `prefix_keywords` of the host to the instance, the `install()` hook
runs, and only then is the instance stored in `self.plugins`. -/
def installPlugin (st : HostState) (p : Plugin) : HostState × Option Plugin :=
  if (alookup st.plugins p.plugin_id).isSome then
    (st, none)
  else
    let p1 := { p with p_prefix_keywords := p.p_prefix_keywords ++ st.prefix_keywords }
    let p2 := { p1 with installed := true }
    ({ st with plugins := st.plugins ++ [(p.plugin_id, p2)] }, some p2)

/-- `BotInstance.uninstall_plugin`: asserts that the identifier is neither
the reserved `__factory__` slot nor absent (on failure the `AssertionError`
propagates and the host is untouched); otherwise runs the `uninstall()` hook
of the stored instance and deletes it from `self.plugins`. -/
def uninstallPlugin (st : HostState) (pid : String) : HostState × Option Plugin :=
  if pid = "__factory__" then
    (st, none)
  else
    match alookup st.plugins pid with
    | none => (st, none)
    | some q =>
      ({ st with plugins := eraseKey st.plugins pid }, some { q with uninstalled := true })

/-! ## Control-plane responses: KOOKBotInstance.__check_response -/

/-- Modelled from the spec: `ResponseException` (defined in
`amiyabot/network/httpRequests.py`, which is not among these sources) is the
application-level error carrying a code and a message. -/
structure ResponseException where
  code : Int
  msg : String
deriving Repr, DecidableEq

/-- A parsed JSON response body, modelled by the fields `__check_response`
reads: the optional `code` entry and the `msg` entry passed on to
`ResponseException(**data)`. -/
structure JsonObj where
  code : Option Int
  msg : String
deriving Repr, DecidableEq

/-- `KOOKBotInstance.__check_response`.  The input is the HTTP response
text after `json.loads`: `none` for a `None` response, `Except.error e` when
decoding raised `json.JSONDecodeError` (with `e` standing for `repr` of the
error), `Except.ok d` for a decoded object.  A `None` response yields
`None`; a decode failure raises `ResponseException(-1, repr(e))`; an object
whose `code` entry exists and is nonzero raises `ResponseException(**data)`;
otherwise the object is returned. -/
def check_response : Option (Except String JsonObj) → Except ResponseException (Option JsonObj)
  | none => Except.ok none
  | some (Except.error e) => Except.error { code := -1, msg := e }
  | some (Except.ok d) =>
    match d.code with
    | some c => if c ≠ 0 then Except.error { code := c, msg := d.msg } else Except.ok (some d)
    | none => Except.ok (some d)

/-- `KOOKBotInstance.get_request`: returns `__check_response` applied to the
transport result, with no handling around it, so any raised
`ResponseException` propagates to the caller and the request is not
retried. -/
def get_request (resp : Option (Except String JsonObj)) : Except ResponseException (Option JsonObj) :=
  check_response resp

/-- `KOOKBotInstance.post_request`: same shape as `get_request`. -/
def post_request (resp : Option (Except String JsonObj)) : Except ResponseException (Option JsonObj) :=
  check_response resp

/-! ## Verify: amiyabot/builtin/message/structure.py -/

/-- The `Verify` class: `result`, `weight` (default `0`) and `keypoint`
(default `None`).  The keypoint payload type is arbitrary. -/
structure Verify (α : Type) where
  result : Bool
  weight : Int := 0
  keypoint : Option α := none
deriving Repr, DecidableEq

/-- `Verify.__bool__` returns `bool(self.result)`, which for a boolean
`result` is `result` itself. -/
def Verify.toBool {α : Type} (v : Verify α) : Bool :=
  v.result

/-- The `PluginInstance` stored by a successful `install_plugin` call: the
argument after `set_prefix_keywords(self.prefix_keywords)` appended the
merged prefix keywords of the host and after the `install()` hook ran. -/
def installedInstance (st : HostState) (p : Plugin) : Plugin :=
  { p with p_prefix_keywords := p.p_prefix_keywords ++ st.prefix_keywords,
           installed := true }

/-- A host with no private handlers and no plugins, for concrete runs. -/
def hostEmpty : HostState :=
  { priv_prefix_keywords := [], priv_event_handlers := [], priv_message_handlers := [],
    priv_exception_handlers := [], priv_after_reply_handlers := [],
    priv_before_reply_handlers := [], priv_middleware := [], priv_group_config := [],
    plugins := [] }

/-- A sample plugin with identifier `a`, for concrete runs. -/
def pluginA : Plugin :=
  { plugin_id := "a", p_prefix_keywords := [], p_event_handlers := [],
    p_message_handlers := [3], p_exception_handlers := [], p_after_reply_handlers := [],
    p_before_reply_handlers := [], p_middleware := [], p_group_config := [] }

/-- A sample plugin with identifier `b`, for concrete runs. -/
def pluginB : Plugin :=
  { plugin_id := "b", p_prefix_keywords := ["!"], p_event_handlers := [("e", [11])],
    p_message_handlers := [5], p_exception_handlers := [], p_after_reply_handlers := [],
    p_before_reply_handlers := [], p_middleware := [], p_group_config := [] }

/-- A sample plugin carrying the reserved identifier `__factory__`. -/
def pluginFactory : Plugin :=
  { plugin_id := "__factory__", p_prefix_keywords := [], p_event_handlers := [],
    p_message_handlers := [7], p_exception_handlers := [], p_after_reply_handlers := [],
    p_before_reply_handlers := [], p_middleware := [], p_group_config := [] }

/-- A host that already has `pluginA` installed, for concrete runs. -/
def hostWithA : HostState :=
  { hostEmpty with plugins := [("a", pluginA)] }

/-! ## Theorems -/

/-- Claim C10: the boolean value of `Verify(result, weight, keypoint)` is
`bool(result)` whatever `weight` and `keypoint` are, and the omitted
arguments default to `weight = 0`, `keypoint = None`. -/
theorem verify_bool_and_defaults {α : Type} (r : Bool) (w : Int) (k : Option α) :
    (Verify.mk r w k).toBool = r ∧ ({ result := r } : Verify α) = Verify.mk r 0 none :=
  ⟨rfl, rfl⟩

/-- Claim C9: `__check_response` maps a `None` response to `None`, raises a
code `-1` error on undecodable JSON, raises an error carrying the code and
message of a decoded object whose `code` entry is nonzero, and otherwise
returns the decoded object; `get_request` exposes exactly this behaviour to
its caller. -/
theorem check_response_cases (resp : Option (Except String JsonObj)) :
    (resp = none → get_request resp = Except.ok none)
    ∧ (∀ e, resp = some (Except.error e) →
        get_request resp = Except.error { code := -1, msg := e })
    ∧ (∀ d c, resp = some (Except.ok d) → d.code = some c → c ≠ 0 →
        get_request resp = Except.error { code := c, msg := d.msg })
    ∧ (∀ d, resp = some (Except.ok d) → (∀ c, d.code = some c → c = 0) →
        get_request resp = Except.ok (some d)) := by
  refine ⟨?_, ?_, ?_, ?_⟩
  · intro h; subst h; rfl
  · intro e h; subst h; rfl
  · intro d c h hc hne; subst h
    simp [get_request, check_response, hc, hne]
  · intro d h hall; subst h
    cases hdc : d.code with
    | none => simp [get_request, check_response, hdc]
    | some c =>
      have hc0 : c = 0 := hall c hdc
      subst hc0
      simp [get_request, check_response, hdc]

/-- Witness for C9 at a concrete nonzero-code response. -/
theorem check_response_cases_witness :
    get_request (some (Except.ok { code := some 5, msg := "err" })) =
      Except.error { code := 5, msg := "err" } :=
  (check_response_cases
      (some (Except.ok { code := some 5, msg := "err" }))).2.2.1
    { code := some 5, msg := "err" } 5 rfl rfl (by decide)

/-- Claim C2: a handshake-result frame with `s = 1` and `d.code ≠ 0` clears
the cached gateway endpoint and the sequence, raises `TimeoutError` (ending
the attempt) without sending anything, so the next attempt requests a fresh
gateway endpoint and a subsequent handshake-ok frame triggers no resume
frame. -/
theorem handshake_reject_resets (st : KookState) (p : WSPayload)
    (hs : p.s = 1) (hc : p.d_code ≠ 0) :
    (processFrame st p).st.ws_url = ""
    ∧ (processFrame st p).st.last_sn = 0
    ∧ (processFrame st p).raisedTimeout = true
    ∧ (processFrame st p).sent = []
    ∧ needsGatewayRequest (processFrame st p).st = true
    ∧ (∀ q : WSPayload, q.s = 1 → q.d_code = 0 → q.sn = none →
        (processFrame (processFrame st p).st q).sent = []) := by
  refine ⟨?_, ?_, ?_, ?_, ?_, ?_⟩
  · cases hsn : p.sn <;> simp [processFrame, hsn, hs, hc]
  · cases hsn : p.sn <;> simp [processFrame, hsn, hs, hc]
  · cases hsn : p.sn <;> simp [processFrame, hsn, hs, hc]
  · cases hsn : p.sn <;> simp [processFrame, hsn, hs, hc]
  · cases hsn : p.sn <;> simp [processFrame, hsn, hs, hc, needsGatewayRequest]
  · intro q hq1 hq2 hq3
    cases hsn : p.sn <;>
      simp [processFrame, hsn, hs, hc, hq1, hq2, hq3]

/-- Witness for C2 at a concrete rejected handshake. -/
theorem handshake_reject_resets_witness :
    ((1 : Int) ≠ 0)
    ∧ (processFrame
        { ws_url := "wss", last_sn := 9, pong := 0, session := "",
          keep_run := true, connected := true }
        { s := 1, d_code := 40103 }).st.ws_url = "" :=
  ⟨by decide,
   (handshake_reject_resets
      { ws_url := "wss", last_sn := 9, pong := 0, session := "",
        keep_run := true, connected := true }
      { s := 1, d_code := 40103 } rfl (by decide)).1⟩

/-- Claim C7: on a handshake-ok frame arriving while a nonzero sequence is
cached, the loop sends the resume frame `WSPayload(4, sn=last_sn)` and only
then completes the handshake (stores the session id, spawns the heartbeat);
a later `s = 6` resume-acknowledged frame changes nothing and sends
nothing. -/
theorem resume_on_handshake_ok (st : KookState) (p : WSPayload)
    (hs : p.s = 1) (hc : p.d_code = 0) (hsn : p.sn = none) (hl : st.last_sn ≠ 0) :
    (processFrame st p).sent = [{ s := 4, sn := some st.last_sn }]
    ∧ (processFrame st p).st.session = p.d_session_id
    ∧ (processFrame st p).st.last_sn = st.last_sn
    ∧ (processFrame st p).raisedTimeout = false
    ∧ (processFrame st p).spawnedHeartbeat = true
    ∧ (∀ q : WSPayload, q.s = 6 → q.sn = none →
        processFrame (processFrame st p).st q =
          { st := (processFrame st p).st, sent := [], spawnedEvent := false,
            spawnedHeartbeat := false, raisedTimeout := false, closedConn := false }) := by
  refine ⟨?_, ?_, ?_, ?_, ?_, ?_⟩
  · simp [processFrame, hs, hc, hsn, hl]
  · simp [processFrame, hs, hc, hsn, hl]
  · simp [processFrame, hs, hc, hsn, hl]
  · simp [processFrame, hs, hc, hsn, hl]
  · simp [processFrame, hs, hc, hsn, hl]
  · intro q hq1 hq2
    simp [processFrame, hs, hc, hsn, hl, hq1, hq2]

/-- Witness for C7 at a concrete resume situation. -/
theorem resume_on_handshake_ok_witness :
    ((7 : Int) ≠ 0)
    ∧ (processFrame
        { ws_url := "wss", last_sn := 7, pong := 0, session := "",
          keep_run := true, connected := true }
        { s := 1, d_code := 0, d_session_id := "sid" }).sent =
      [{ s := 4, sn := some 7 }] :=
  ⟨by decide,
   (resume_on_handshake_ok
      { ws_url := "wss", last_sn := 7, pong := 0, session := "",
        keep_run := true, connected := true }
      { s := 1, d_code := 0, d_session_id := "sid" } rfl rfl rfl (by decide)).1⟩

/-- Once `close_connection` has run, `__still_alive` is false and the
watchdog loop exits immediately with no further close. -/
theorem watchdogFrom_dead (pongTick : Nat → Bool) (fuel sec closes : Nat) :
    watchdogFrom pongTick fuel sec false closes = (closes, 0) := by
  cases fuel with
  | zero => rfl
  | succ n => simp [watchdogFrom]

/-- If the pong flag stays clear at every check up to second 29, the
watchdog closes the connection exactly once and then stops. -/
theorem watchdogFrom_noack (pongTick : Nat → Bool) :
    ∀ fuel sec closes : Nat, sec ≤ 29 →
      (∀ i, sec ≤ i → i ≤ 29 → pongTick i = false) →
      31 - sec ≤ fuel →
      watchdogFrom pongTick fuel sec true closes = (closes + 1, 0) := by
  intro fuel
  induction fuel with
  | zero => intro sec closes hsec _ hfuel; omega
  | succ n ih =>
    intro sec closes hsec hall hfuel
    have hp : pongTick sec = false := hall sec le_rfl hsec
    by_cases h30 : 30 ≤ sec + 1
    · simp only [watchdogFrom, hp, if_pos (And.intro rfl rfl), if_pos h30]
      exact watchdogFrom_dead pongTick n (sec + 1) (closes + 1)
    · simp only [watchdogFrom, hp, if_pos (And.intro rfl rfl), if_neg h30]
      exact ih (sec + 1) closes (by omega)
        (fun i h1 h2 => hall i (by omega) h2) (by omega)

/-- If the pong flag is set at some check at or before second 29, the
watchdog exits without closing the connection. -/
theorem watchdogFrom_ack (pongTick : Nat → Bool) :
    ∀ fuel sec closes : Nat,
      (∃ i, sec ≤ i ∧ i ≤ 29 ∧ pongTick i = true) →
      31 - sec ≤ fuel →
      watchdogFrom pongTick fuel sec true closes = (closes, 0) := by
  intro fuel
  induction fuel with
  | zero =>
    intro sec closes hex hfuel
    obtain ⟨i, h1, h2, _⟩ := hex
    omega
  | succ n ih =>
    intro sec closes hex hfuel
    by_cases hp : pongTick sec = true
    · simp [watchdogFrom, hp]
    · have hpf : pongTick sec = false := by
        cases h : pongTick sec
        · rfl
        · exact absurd h hp
      obtain ⟨i, h1, h2, h3⟩ := hex
      have hi : sec + 1 ≤ i := by
        rcases Nat.lt_or_ge sec i with h | h
        · omega
        · have : i = sec := by omega
          rw [this] at h3
          exact absurd h3 hp
      have h30 : ¬(30 ≤ sec + 1) := by omega
      simp only [watchdogFrom, hpf, if_pos (And.intro rfl rfl), if_neg h30]
      exact ih (sec + 1) closes ⟨i, hi, h2, h3⟩ (by omega)

/-- Whatever happens, the loop exits with `self.pong = 0`. -/
theorem watchdogFrom_snd (pongTick : Nat → Bool) :
    ∀ fuel sec alive closes, (watchdogFrom pongTick fuel sec alive closes).2 = 0 := by
  intro fuel
  induction fuel with
  | zero => intro sec alive closes; rfl
  | succ n ih =>
    intro sec alive closes
    by_cases h : pongTick sec = false ∧ alive = true
    · simp only [watchdogFrom, if_pos h]
      by_cases h30 : 30 ≤ sec + 1
      · simp only [if_pos h30]; exact ih (sec + 1) false (closes + 1)
      · simp only [if_neg h30]; exact ih (sec + 1) alive closes
    · simp only [watchdogFrom, if_neg h]

/-- Claim C6: `wait_heartbeat` closes the connection exactly once when no
heartbeat ack arrives within the 30-second deadline, exits without closing
when an ack arrives in time, always leaves the pong flag reset to 0 after
observing it, and an `s = 3` ack frame is what sets the flag to 1 in the
receive loop. -/
theorem wait_heartbeat_watchdog (pongTick : Nat → Bool) :
    ((∀ i, i ≤ 30 → pongTick i = false) → watchdogRun pongTick = (1, 0))
    ∧ ((∃ i, i ≤ 29 ∧ pongTick i = true) → watchdogRun pongTick = (0, 0))
    ∧ (watchdogRun pongTick).2 = 0
    ∧ (∀ (st : KookState) (p : WSPayload), p.s = 3 → (processFrame st p).st.pong = 1) := by
  refine ⟨?_, ?_, ?_, ?_⟩
  · intro hall
    exact watchdogFrom_noack pongTick 40 0 0 (by omega)
      (fun i _ h2 => hall i (by omega)) (by omega)
  · intro hex
    obtain ⟨i, h1, h2⟩ := hex
    exact watchdogFrom_ack pongTick 40 0 0 ⟨i, Nat.zero_le i, h1, h2⟩ (by omega)
  · exact watchdogFrom_snd pongTick 40 0 true 0
  · intro st p h3
    cases hsn : p.sn <;> simp [processFrame, hsn, h3]

/-- Witness for C6: with no ack at all, the run closes exactly once. -/
theorem wait_heartbeat_watchdog_witness :
    watchdogRun (fun _ => false) = (1, 0) :=
  (wait_heartbeat_watchdog (fun _ => false)).1 (fun _ _ => rfl)

/-- A frame that is neither a handshake reject nor a reconnect-required
frame raises nothing, keeps the loop alive, and sets `last_sn` to its `sn`
field when that is non-null (leaving it alone otherwise). -/
theorem processFrame_normal (st : KookState) (p : WSPayload)
    (hnr : ¬(p.s = 1 ∧ p.d_code ≠ 0)) (h5 : p.s ≠ 5) :
    (processFrame st p).raisedTimeout = false
    ∧ (processFrame st p).st.keep_run = st.keep_run
    ∧ (processFrame st p).st.connected = st.connected
    ∧ (processFrame st p).st.last_sn = p.sn.getD st.last_sn := by
  cases hsn : p.sn with
  | none =>
    by_cases h0 : p.s = 0
    · simp [processFrame, hsn, h0]
    · by_cases h1 : p.s = 1
      · have hc : p.d_code = 0 := by
          by_contra hc
          exact hnr ⟨h1, hc⟩
        simp [processFrame, hsn, h0, h1, hc]
      · by_cases h3 : p.s = 3
        · simp [processFrame, hsn, h0, h1, h3]
        · simp [processFrame, hsn, h0, h1, h3, h5]
  | some v =>
    by_cases h0 : p.s = 0
    · simp [processFrame, hsn, h0]
    · by_cases h1 : p.s = 1
      · have hc : p.d_code = 0 := by
          by_contra hc
          exact hnr ⟨h1, hc⟩
        simp [processFrame, hsn, h0, h1, hc]
      · by_cases h3 : p.s = 3
        · simp [processFrame, hsn, h0, h1, h3]
        · simp [processFrame, hsn, h0, h1, h3, h5]

/-- `getLast?` of a cons, with a default. -/
theorem getLast?_cons_getD :
    ∀ (l : List Int) (a d : Int), ((a :: l).getLast?).getD d = (l.getLast?).getD a := by
  intro l
  induction l with
  | nil => intro a d; rfl
  | cons b l ih =>
    intro a d
    rw [List.getLast?_cons_cons, ih b d, ih b a]

/-- Claim C1 (amended): over any session segment in which the loop stays
alive, no frame is a handshake reject or a reconnect-required frame, and the
non-null `sn` fields arrive in non-decreasing order starting from the
current `last_sn`, the final `last_sn` is the `sn` of the most recently
processed frame with non-null `sn` (or the starting value if there is none)
and the `last_sn` trace never decreases. -/
theorem kook_last_sn_tracks (st : KookState) (frames : List WSPayload)
    (hrun : st.keep_run = true) (hconn : st.connected = true)
    (hnr : ∀ p ∈ frames, ¬(p.s = 1 ∧ p.d_code ≠ 0) ∧ p.s ≠ 5)
    (hmono : List.Chain (fun a b => a ≤ b) st.last_sn (snsOf frames)) :
    (runFrames st frames).last_sn = ((snsOf frames).getLast?).getD st.last_sn
    ∧ List.Chain (fun a b => a ≤ b) st.last_sn (lastSnTrace st frames) := by
  induction frames generalizing st with
  | nil => exact ⟨rfl, List.Chain.nil⟩
  | cons p ps ih =>
    have hp := hnr p (List.mem_cons_self p ps)
    have hps : ∀ q ∈ ps, ¬(q.s = 1 ∧ q.d_code ≠ 0) ∧ q.s ≠ 5 :=
      fun q hq => hnr q (List.mem_cons_of_mem p hq)
    have hstep := processFrame_normal st p hp.1 hp.2
    have hguard : st.keep_run = true ∧ st.connected = true := ⟨hrun, hconn⟩
    have hrun' : (processFrame st p).st.keep_run = true := by rw [hstep.2.1]; exact hrun
    have hconn' : (processFrame st p).st.connected = true := by rw [hstep.2.2.1]; exact hconn
    simp only [runFrames, lastSnTrace, if_pos hguard, hstep.1, Bool.false_eq_true, if_false]
    cases hsn : p.sn with
    | some v =>
      have hlast : (processFrame st p).st.last_sn = v := by
        rw [hstep.2.2.2, hsn]; rfl
      have hsns : snsOf (p :: ps) = v :: snsOf ps := by
        simp [snsOf, List.filterMap_cons, hsn]
      rw [hsns] at hmono
      rw [List.chain_cons] at hmono
      obtain ⟨hle, hchain⟩ := hmono
      have hchain' : List.Chain (fun a b => a ≤ b) (processFrame st p).st.last_sn (snsOf ps) := by
        rw [hlast]; exact hchain
      obtain ⟨iha, ihb⟩ := ih (processFrame st p).st hrun' hconn' hps hchain'
      constructor
      · rw [hsns, getLast?_cons_getD, iha, hlast]
      · apply List.Chain.cons
        · rw [hlast]; exact hle
        · exact ihb
    | none =>
      have hlast : (processFrame st p).st.last_sn = st.last_sn := by
        rw [hstep.2.2.2, hsn]; rfl
      have hsns : snsOf (p :: ps) = snsOf ps := by
        simp [snsOf, List.filterMap_cons, hsn]
      rw [hsns] at hmono
      have hchain' : List.Chain (fun a b => a ≤ b) (processFrame st p).st.last_sn (snsOf ps) := by
        rw [hlast]; exact hmono
      obtain ⟨iha, ihb⟩ := ih (processFrame st p).st hrun' hconn' hps hchain'
      constructor
      · rw [hsns, iha, hlast]
      · apply List.Chain.cons
        · rw [hlast]
        · exact ihb

/-- Counterexample for C1 as stated: two data frames with sequence numbers 5
then 3 make `last_sn` decrease from 5 to 3 within one session, so `last_sn`
is not monotonically non-decreasing for every frame sequence. -/
theorem kook_last_sn_not_monotone :
    (runFrames
        { ws_url := "wss", last_sn := 0, pong := 0, session := "",
          keep_run := true, connected := true }
        [{ s := 0, sn := some 5 }]).last_sn = 5
    ∧ (runFrames
        { ws_url := "wss", last_sn := 0, pong := 0, session := "",
          keep_run := true, connected := true }
        [{ s := 0, sn := some 5 }, { s := 0, sn := some 3 }]).last_sn = 3
    ∧ ¬((runFrames
          { ws_url := "wss", last_sn := 0, pong := 0, session := "",
            keep_run := true, connected := true }
          [{ s := 0, sn := some 5 }]).last_sn ≤
        (runFrames
          { ws_url := "wss", last_sn := 0, pong := 0, session := "",
            keep_run := true, connected := true }
          [{ s := 0, sn := some 5 }, { s := 0, sn := some 3 }]).last_sn) := by
  decide

/-- Witness for C1 (amended) on a concrete non-decreasing session. -/
theorem kook_last_sn_tracks_witness :
    (runFrames
        { ws_url := "wss", last_sn := 0, pong := 0, session := "",
          keep_run := true, connected := true }
        [{ s := 0, sn := some 2 }, { s := 3, sn := none }, { s := 0, sn := some 4 }]).last_sn = 4 := by
  have h := kook_last_sn_tracks
    { ws_url := "wss", last_sn := 0, pong := 0, session := "",
      keep_run := true, connected := true }
    [{ s := 0, sn := some 2 }, { s := 3, sn := none }, { s := 0, sn := some 4 }]
    rfl rfl (by decide)
    (List.Chain.cons (by decide) (List.Chain.cons (by decide) List.Chain.nil))
  rw [h.1]
  decide

/-- A key outside the key list of a dictionary looks up to nothing. -/
theorem alookup_eq_none_of_not_mem {K V : Type} [DecidableEq K] :
    ∀ (l : AList K V) (k : K), k ∉ l.map Prod.fst → alookup l k = none := by
  intro l
  induction l with
  | nil => intro k _; rfl
  | cons kv rest ih =>
    intro k hk
    obtain ⟨k0, v0⟩ := kv
    have h1 : ¬(k0 = k) := by
      intro h
      exact hk (by simp [h])
    have h2 : k ∉ rest.map Prod.fst := by
      intro h
      exact hk (by simp [h])
    simp only [alookup, if_neg h1]
    exact ih k h2

/-- Lookup after a single dictionary assignment. -/
theorem alookup_dictSet {K V : Type} [DecidableEq K] :
    ∀ (d : AList K V) (k : K) (v : V) (key : K),
      alookup (dictSet d k v) key = if k = key then some v else alookup d key := by
  intro d
  induction d with
  | nil => intro k v key; rfl
  | cons kv rest ih =>
    intro k v key
    obtain ⟨k0, v0⟩ := kv
    by_cases h0 : k0 = k
    · subst h0
      simp only [dictSet, if_pos rfl]
      by_cases hk : k0 = key
      · simp [alookup, hk]
      · simp [alookup, hk]
    · simp only [dictSet, if_neg h0]
      by_cases hk : k0 = key
      · subst hk
        have : ¬(k = k0) := fun h => h0 h.symm
        simp [alookup, this]
      · simp [alookup, hk, ih k v key]

/-- Lookup after `d.update(m)` for an update map with unique keys: keys of
`m` win, anything else falls back to `d`. -/
theorem alookup_dictUpdate {K V : Type} [DecidableEq K] :
    ∀ (m d : AList K V) (k : K), (m.map Prod.fst).Nodup →
      alookup (dictUpdate d m) k =
        match alookup m k with
        | some v => some v
        | none => alookup d k := by
  intro m
  induction m with
  | nil => intro d k _; rfl
  | cons kv rest ih =>
    intro d k hnd
    obtain ⟨k0, v0⟩ := kv
    have hnotin : k0 ∉ rest.map Prod.fst := by
      simp only [List.map_cons, List.nodup_cons] at hnd
      exact hnd.1
    have hndrest : (rest.map Prod.fst).Nodup := by
      simp only [List.map_cons, List.nodup_cons] at hnd
      exact hnd.2
    have hstep : dictUpdate d ((k0, v0) :: rest) = dictUpdate (dictSet d k0 v0) rest := rfl
    rw [hstep, ih (dictSet d k0 v0) k hndrest]
    by_cases h0 : k0 = k
    · subst h0
      have hrest : alookup rest k0 = none := alookup_eq_none_of_not_mem rest k0 hnotin
      simp [alookup, hrest, alookup_dictSet]
    · simp only [alookup, if_neg h0]
      cases alookup rest k with
      | some v => rfl
      | none => simp [alookup_dictSet, h0]

/-- Lookup in `dict(ChainMap(*maps))` is first-map-wins. -/
theorem alookup_dictOfChainMap {K V : Type} [DecidableEq K] :
    ∀ (maps : List (AList K V)), (∀ m ∈ maps, (m.map Prod.fst).Nodup) →
      ∀ k, alookup (dictOfChainMap maps) k = chainFirst maps k := by
  intro maps
  induction maps with
  | nil => intro _ k; rfl
  | cons m rest ih =>
    intro hnd k
    have hstep : dictOfChainMap (m :: rest) = dictUpdate (dictOfChainMap rest) m := by
      simp [dictOfChainMap, List.reverse_cons, List.foldl_append]
    rw [hstep, alookup_dictUpdate m (dictOfChainMap rest) k (hnd m (List.mem_cons_self m rest))]
    have hrest := ih (fun x hx => hnd x (List.mem_cons_of_mem m hx)) k
    simp only [chainFirst]
    cases alookup m k with
    | some v => rfl
    | none => exact hrest

/-- Lookup distributes over append, first list first. -/
theorem alookup_append {K V : Type} [DecidableEq K] :
    ∀ (l1 l2 : AList K V) (k : K),
      alookup (l1 ++ l2) k =
        match alookup l1 k with
        | some v => some v
        | none => alookup l2 k := by
  intro l1
  induction l1 with
  | nil => intro l2 k; rfl
  | cons kv rest ih =>
    intro l2 k
    obtain ⟨k0, v0⟩ := kv
    by_cases h0 : k0 = k
    · simp [alookup, h0]
    · simp only [List.cons_append, alookup, if_neg h0]
      exact ih l2 k

/-- Lookup in the host part of the merged dictionary view: host entries keep
their keys and, when a plugin also has the key, grow by the plugin list. -/
theorem alookup_selfPart {K E : Type} [DecidableEq K] :
    ∀ (self : AList K (List E)) (pv : AList K (List E)) (k : K),
      alookup (self.map fun kv =>
        match alookup pv kv.1 with
        | some w => (kv.1, kv.2 ++ w)
        | none => kv) k =
      match alookup self k, alookup pv k with
      | some v, some w => some (v ++ w)
      | some v, none => some v
      | none, _ => none := by
  intro self
  induction self with
  | nil => intro pv k; cases alookup pv k <;> rfl
  | cons kv rest ih =>
    intro pv k
    obtain ⟨k0, v0⟩ := kv
    by_cases h0 : k0 = k
    · subst h0
      cases hpv : alookup pv k0 <;> simp [alookup, hpv]
    · cases hpv0 : alookup pv k0 <;>
        simp only [List.map_cons, hpv0, alookup, if_neg h0] <;>
        exact ih pv k

/-- Lookup in a dictionary filtered by a predicate on keys. -/
theorem alookup_filterKeyPred {K V : Type} [DecidableEq K] (p : K → Bool) :
    ∀ (l : AList K V) (k : K),
      alookup (l.filter fun kv => p kv.1) k = if p k then alookup l k else none := by
  intro l
  induction l with
  | nil => intro k; cases hp : p k <;> simp [alookup, hp]
  | cons kv rest ih =>
    intro k
    obtain ⟨k0, v0⟩ := kv
    by_cases h0 : k0 = k
    · subst h0
      cases hp0 : p k0 <;> simp [List.filter_cons, alookup, hp0, ih k0]
    · cases hp0 : p k0 <;> simp [List.filter_cons, alookup, hp0, h0, ih k]

/-- Lookup characterization of the implemented merged dictionary view: the
host list extended by the contribution of the earliest-installed plugin that
has the key; a key only plugins have gets that earliest contribution. -/
theorem alookup_getWithPluginsDict {K E : Type} [DecidableEq K]
    (self : AList K (List E)) (ps : List (AList K (List E)))
    (hnd : ∀ m ∈ ps, (m.map Prod.fst).Nodup) (k : K) :
    alookup (getWithPluginsDict self ps) k =
      match alookup self k, chainFirst ps k with
      | some v, some w => some (v ++ w)
      | some v, none => some v
      | none, w => w := by
  unfold getWithPluginsDict
  rw [alookup_append, alookup_selfPart,
    alookup_filterKeyPred (fun key => (alookup self key).isNone),
    alookup_dictOfChainMap ps hnd k]
  cases hs : alookup self k <;> cases hc : chainFirst ps k <;>
    simp [hs, alookup_dictOfChainMap ps hnd k, hc]

/-- Claim C3 (amended): a merged list-shaped view is the host sequence
followed by each plugin sequence in installation order; a merged dict-shaped
view has the union of keys, but the plugin contribution for a key is the
entry list of the earliest-installed plugin that has the key (later plugins
are shadowed by `dict(ChainMap(...))`), appended after the host entries when
the host also has the key and taken alone otherwise. -/
theorem merge_rule_amended {K E : Type} [DecidableEq K]
    (self_list : List E) (plugin_lists : List (List E))
    (self_dict : AList K (List E)) (plugin_dicts : List (AList K (List E)))
    (hnd : ∀ m ∈ plugin_dicts, (m.map Prod.fst).Nodup) (k : K) :
    getWithPluginsList self_list plugin_lists = self_list ++ plugin_lists.flatten
    ∧ alookup (getWithPluginsDict self_dict plugin_dicts) k =
        match alookup self_dict k, chainFirst plugin_dicts k with
        | some v, some w => some (v ++ w)
        | some v, none => some v
        | none, w => w :=
  ⟨rfl, alookup_getWithPluginsDict self_dict plugin_dicts hnd k⟩

/-- Counterexample for C3 as stated: with host entry `[1]` under a key and
two plugins contributing `[2]` and `[3]` under the same key, the merged
value is `[1, 2]` — the second plugin contribution is dropped — while the
claimed merge (host entries followed by the plugin entries in installation
order) is `[1, 2, 3]`. -/
theorem merge_rule_counterexample :
    alookup (getWithPluginsDict [((0 : Nat), [(1 : Nat)])] [[(0, [2])], [(0, [3])]]) 0 = some [1, 2]
    ∧ specMergedValue [((0 : Nat), [(1 : Nat)])] [[(0, [2])], [(0, [3])]] 0 = some [1, 2, 3]
    ∧ alookup (getWithPluginsDict [((0 : Nat), [(1 : Nat)])] [[(0, [2])], [(0, [3])]]) 0 ≠
        specMergedValue [((0 : Nat), [(1 : Nat)])] [[(0, [2])], [(0, [3])]] 0 := by
  decide

/-- Witness for C3 (amended) at a concrete host and plugin pair. -/
theorem merge_rule_amended_witness :
    getWithPluginsList [(1 : Nat)] [[2], [3]] = [1, 2, 3]
    ∧ alookup (getWithPluginsDict [((0 : Nat), [(1 : Nat)])] [[(0, [2])], [(0, [3])]]) 0 =
        some [1, 2] := by
  have h := merge_rule_amended [(1 : Nat)] [[2], [3]]
    [((0 : Nat), [(1 : Nat)])] [[(0, [2])], [(0, [3])]] (by decide) 0
  exact ⟨h.1.trans (by decide), h.2.trans (by decide)⟩

/-- Claim C4 is false of the code (code bug): because `value = {**self_attr}`
aliases the host list objects and `value[k] += plugin_value[k]` extends them
in place, one read of a merged dict-shaped view mutates the host private
dictionary, and a second read returns a different (further grown) result. -/
theorem merged_view_read_mutates :
    selfAttrAfterRead [("e", [(10 : Nat)])] [[("e", [11])]] = [("e", [10, 11])]
    ∧ selfAttrAfterRead [("e", [(10 : Nat)])] [[("e", [11])]] ≠ [("e", [10])]
    ∧ getWithPluginsDict [("e", [(10 : Nat)])] [[("e", [11])]] = [("e", [10, 11])]
    ∧ getWithPluginsDict (selfAttrAfterRead [("e", [(10 : Nat)])] [[("e", [11])]]) [[("e", [11])]]
        = [("e", [10, 11, 11])]
    ∧ getWithPluginsDict (selfAttrAfterRead [("e", [(10 : Nat)])] [[("e", [11])]]) [[("e", [11])]]
        ≠ getWithPluginsDict [("e", [(10 : Nat)])] [[("e", [11])]] := by
  decide

/-- Deleting a key just appended to a dictionary that did not contain it
restores the original dictionary. -/
theorem eraseKey_append_key {K V : Type} [DecidableEq K] :
    ∀ (l : AList K V) (k : K) (v : V), alookup l k = none →
      eraseKey (l ++ [(k, v)]) k = l := by
  intro l
  induction l with
  | nil => intro k v _; simp [eraseKey]
  | cons kv rest ih =>
    intro k v h
    obtain ⟨k0, v0⟩ := kv
    have h0 : ¬(k0 = k) := by
      intro he
      simp [alookup, he] at h
    have hrest : alookup rest k = none := by
      simpa [alookup, h0] using h
    simp only [List.cons_append, eraseKey, if_neg h0]
    exact congrArg (fun t => (k0, v0) :: t) (ih k v hrest)

/-- After `del d[k]` on a dictionary with unique keys, `k` is gone. -/
theorem alookup_eraseKey_self {K V : Type} [DecidableEq K] :
    ∀ (l : AList K V) (k : K), (l.map Prod.fst).Nodup →
      alookup (eraseKey l k) k = none := by
  intro l
  induction l with
  | nil => intro k _; rfl
  | cons kv rest ih =>
    intro k hnd
    obtain ⟨k0, v0⟩ := kv
    simp only [List.map_cons, List.nodup_cons] at hnd
    by_cases h0 : k0 = k
    · subst h0
      simp only [eraseKey, if_pos rfl]
      exact alookup_eq_none_of_not_mem rest k0 hnd.1
    · simp only [eraseKey, if_neg h0, alookup, if_neg h0]
      exact ih k hnd.2

/-- Claim C5 (amended): for a plugin whose identifier is neither already
installed nor the reserved `__factory__` slot, `install_plugin` followed by
`uninstall_plugin` of that identifier restores the host state itself, hence
every merged handler view, exactly. -/
theorem install_uninstall_roundtrip (st : HostState) (p : Plugin)
    (h1 : alookup st.plugins p.plugin_id = none)
    (h2 : p.plugin_id ≠ "__factory__") :
    (uninstallPlugin (installPlugin st p).1 p.plugin_id).1 = st
    ∧ HostState.message_handlers (uninstallPlugin (installPlugin st p).1 p.plugin_id).1
        = st.message_handlers
    ∧ HostState.event_handlers (uninstallPlugin (installPlugin st p).1 p.plugin_id).1
        = st.event_handlers
    ∧ HostState.exception_handlers (uninstallPlugin (installPlugin st p).1 p.plugin_id).1
        = st.exception_handlers
    ∧ HostState.before_reply_handlers (uninstallPlugin (installPlugin st p).1 p.plugin_id).1
        = st.before_reply_handlers
    ∧ HostState.after_reply_handlers (uninstallPlugin (installPlugin st p).1 p.plugin_id).1
        = st.after_reply_handlers
    ∧ HostState.message_handler_middleware (uninstallPlugin (installPlugin st p).1 p.plugin_id).1
        = st.message_handler_middleware
    ∧ HostState.prefix_keywords (uninstallPlugin (installPlugin st p).1 p.plugin_id).1
        = st.prefix_keywords := by
  have hinst : installPlugin st p =
      ({ st with plugins := st.plugins ++ [(p.plugin_id, installedInstance st p)] },
        some (installedInstance st p)) := by
    unfold installPlugin
    rw [h1]
    rfl
  have hlook : alookup (st.plugins ++ [(p.plugin_id, installedInstance st p)]) p.plugin_id
      = some (installedInstance st p) := by
    rw [alookup_append, h1]
    simp [alookup]
  have hfin : (uninstallPlugin (installPlugin st p).1 p.plugin_id).1 = st := by
    rw [hinst]
    unfold uninstallPlugin
    rw [if_neg h2]
    simp only [hlook]
    simp only [eraseKey_append_key st.plugins p.plugin_id (installedInstance st p) h1]
  refine ⟨hfin, ?_, ?_, ?_, ?_, ?_, ?_, ?_⟩ <;> rw [hfin]

/-- Counterexample for C5 as stated: a plugin whose identifier is the
reserved `__factory__` slot is not installed in the empty host, installs
fine, but `uninstall_plugin` then rejects the identifier, so the merged
message-handler view keeps the plugin contribution `[7]` instead of being
restored to `[]`. -/
theorem factory_roundtrip_counterexample :
    alookup hostEmpty.plugins "__factory__" = none
    ∧ (installPlugin hostEmpty pluginFactory).2.isSome = true
    ∧ uninstallPlugin (installPlugin hostEmpty pluginFactory).1 "__factory__"
        = ((installPlugin hostEmpty pluginFactory).1, none)
    ∧ HostState.message_handlers
        (uninstallPlugin (installPlugin hostEmpty pluginFactory).1 "__factory__").1
        ≠ HostState.message_handlers hostEmpty := by
  decide

/-- Witness for C5 (amended) on the empty host and plugin `a`. -/
theorem install_uninstall_roundtrip_witness :
    (uninstallPlugin (installPlugin hostEmpty pluginA).1 pluginA.plugin_id).1 = hostEmpty :=
  (install_uninstall_roundtrip hostEmpty pluginA (by decide) (by decide)).1

/-- Claim C8: `install_plugin` rejects a duplicate identifier synchronously,
returning with the host untouched and no installed instance; on success the
stored instance has received the merged prefix keywords of the host and run
its `install()` hook (flag set) before becoming visible in merged views,
where the merged message-handler view ends with its contribution.
`uninstall_plugin` rejects the reserved `__factory__` identifier and absent
identifiers with the host untouched; otherwise it runs `uninstall()` on the
stored instance and deletes it, after which the identifier resolves to no
plugin. -/
theorem plugin_install_uninstall_contract (st : HostState) (p : Plugin) (pid : String) :
    ((alookup st.plugins p.plugin_id).isSome = true → installPlugin st p = (st, none))
    ∧ (alookup st.plugins p.plugin_id = none →
        installPlugin st p =
          ({ st with plugins := st.plugins ++ [(p.plugin_id, installedInstance st p)] },
            some (installedInstance st p))
        ∧ (installedInstance st p).p_prefix_keywords
            = p.p_prefix_keywords ++ st.prefix_keywords
        ∧ (installedInstance st p).installed = true
        ∧ alookup (installPlugin st p).1.plugins p.plugin_id = some (installedInstance st p)
        ∧ HostState.message_handlers (installPlugin st p).1
            = st.message_handlers ++ p.p_message_handlers)
    ∧ uninstallPlugin st "__factory__" = (st, none)
    ∧ (pid ≠ "__factory__" → alookup st.plugins pid = none →
        uninstallPlugin st pid = (st, none))
    ∧ (∀ q, pid ≠ "__factory__" → alookup st.plugins pid = some q →
        uninstallPlugin st pid =
          ({ st with plugins := eraseKey st.plugins pid }, some { q with uninstalled := true })
        ∧ ((st.plugins.map Prod.fst).Nodup →
            alookup (uninstallPlugin st pid).1.plugins pid = none)) := by
  refine ⟨?_, ?_, ?_, ?_, ?_⟩
  · intro h
    simp [installPlugin, h]
  · intro h1
    have hinst : installPlugin st p =
        ({ st with plugins := st.plugins ++ [(p.plugin_id, installedInstance st p)] },
          some (installedInstance st p)) := by
      unfold installPlugin
      rw [h1]
      rfl
    refine ⟨hinst, rfl, rfl, ?_, ?_⟩
    · rw [hinst, alookup_append, h1]
      simp [alookup]
    · rw [hinst]
      simp [HostState.message_handlers, getWithPluginsList, List.map_append,
        List.flatten_append, installedInstance]
  · simp [uninstallPlugin]
  · intro hne hnone
    simp [uninstallPlugin, hne, hnone]
  · intro q hne hsome
    have hun : uninstallPlugin st pid =
        ({ st with plugins := eraseKey st.plugins pid }, some { q with uninstalled := true }) := by
      unfold uninstallPlugin
      rw [if_neg hne]
      simp only [hsome]
    refine ⟨hun, ?_⟩
    intro hndp
    rw [hun]
    exact alookup_eraseKey_self st.plugins pid hndp

/-- Witness for C8 exercising all five parts on concrete hosts. -/
theorem plugin_install_uninstall_contract_witness :
    installPlugin hostWithA pluginA = (hostWithA, none)
    ∧ HostState.message_handlers (installPlugin hostEmpty pluginB).1 = [5]
    ∧ uninstallPlugin hostEmpty "__factory__" = (hostEmpty, none)
    ∧ uninstallPlugin hostWithA "b" = (hostWithA, none)
    ∧ alookup (uninstallPlugin hostWithA "a").1.plugins "a" = none := by
  refine ⟨?_, ?_, ?_, ?_, ?_⟩
  · exact (plugin_install_uninstall_contract hostWithA pluginA "x").1 (by decide)
  · exact (((plugin_install_uninstall_contract hostEmpty pluginB "x").2.1
      (by decide)).2.2.2.2).trans (by decide)
  · exact (plugin_install_uninstall_contract hostEmpty pluginB "x").2.2.1
  · exact (plugin_install_uninstall_contract hostWithA pluginB "b").2.2.2.1
      (by decide) (by decide)
  · exact (((plugin_install_uninstall_contract hostWithA pluginB "a").2.2.2.2 pluginA
      (by decide) (by decide)).2) (by decide)

end Amiyabot
